import Mathlib

/-!
Shallow embedding of `docs/source/conf.py`, the Sphinx documentation
configuration of the libmyrtx repository, together with theorems that
settle structural claims about that configuration.

Two layers are given:

1. Value-level definitions, one per assignment in the file, keeping the
   source names (`project`, `extensions`, `html_theme_options`, ...).
2. A syntactic layer: the file as an ordered list of assignments whose
   right-hand sides are expressions, with an evaluator parameterised by a
   build environment. The environment supplies the return value of the
   single external function call in the file
   (`sphinx_rtd_theme.get_html_theme_path()`).
-/

namespace Conf

/-- A scalar value as it appears in the configuration after evaluation:
a string, a boolean, an integer, or the Python value `None`. -/
inductive Value where
| str (s : String)
| bool (b : Bool)
| int (n : Int)
| none
deriving DecidableEq, Repr

/-- An atomic expression of `conf.py`: a scalar literal or a
zero-argument function call (the file contains exactly one such call,
`sphinx_rtd_theme.get_html_theme_path()`). -/
inductive Atom where
| str (s : String)
| bool (b : Bool)
| int (n : Int)
| none
| call (fn : String)
deriving DecidableEq, Repr

/-- A right-hand side of an assignment in `conf.py`: an atom, a list
display, a dict display with string keys, or a tuple display. This
grammar covers every assignment of the file. -/
inductive Expr where
| atom (a : Atom)
| list (xs : List Atom)
| dict (xs : List (String × Atom))
| tuple (xs : List Atom)
deriving DecidableEq, Repr

/-- `true` on every atom except a function call. -/
def isLiteralAtom : Atom → Bool
| .call _ => false
| _ => true

/-- An expression is a literal when no function call occurs in it. -/
def isLiteralExpr : Expr → Bool
| .atom a => isLiteralAtom a
| .list xs => xs.all isLiteralAtom
| .dict xs => xs.all fun kv => isLiteralAtom kv.2
| .tuple xs => xs.all isLiteralAtom

/-- The assignments of `docs/source/conf.py`, in source order, with
their right-hand sides as written in the file. -/
def confAssignments : List (String × Expr) :=
[ ("project", .atom (.str "libmyrtx")),
  ("copyright", .atom (.str "2025, Mike Großmann")),
  ("author", .atom (.str "libmyrtx Contributors")),
  ("version", .atom (.str "0.1.0")),
  ("release", .atom (.str "0.1.0")),
  ("extensions", .list
    [ .str "sphinx.ext.autodoc",
      .str "sphinx.ext.viewcode",
      .str "sphinx.ext.todo",
      .str "sphinx.ext.coverage",
      .str "sphinx.ext.mathjax",
      .str "sphinx.ext.ifconfig",
      .str "sphinx.ext.githubpages",
      .str "sphinx_rtd_theme",
      .str "breathe" ]),
  ("templates_path", .list [.str "_templates"]),
  ("exclude_patterns", .list []),
  ("html_theme", .atom (.str "sphinx_rtd_theme")),
  ("html_theme_path", .list [.call "sphinx_rtd_theme.get_html_theme_path"]),
  ("html_static_path", .list [.str "_static"]),
  ("html_logo", .atom .none),
  ("html_favicon", .atom .none),
  ("html_theme_options", .dict
    [ ("logo_only", .bool false),
      ("display_version", .bool true),
      ("prev_next_buttons_location", .str "bottom"),
      ("style_external_links", .bool false),
      ("collapse_navigation", .bool false),
      ("sticky_navigation", .bool true),
      ("navigation_depth", .int 4),
      ("includehidden", .bool true),
      ("titles_only", .bool false) ]),
  ("breathe_projects", .dict [("libmyrtx", .str "../doxygen_output/xml/")]),
  ("breathe_default_project", .atom (.str "libmyrtx")),
  ("breathe_default_members", .tuple [.str "members", .str "undoc-members"]) ]

/-- The build environment: for each external zero-argument function
name, the value that invoking it returns in that environment. The only
call in the file is `sphinx_rtd_theme.get_html_theme_path()`. -/
structure BuildEnv where
callResult : String → Value

/-- Evaluate an atom in a build environment. -/
def evalAtom (env : BuildEnv) : Atom → Value
| .str s => .str s
| .bool b => .bool b
| .int n => .int n
| .none => .none
| .call fn => env.callResult fn

/-- An evaluated right-hand side. -/
inductive TopValue where
| atom (v : Value)
| list (xs : List Value)
| dict (xs : List (String × Value))
| tuple (xs : List Value)
deriving DecidableEq, Repr

/-- Evaluate an expression in a build environment. -/
def evalExpr (env : BuildEnv) : Expr → TopValue
| .atom a => .atom (evalAtom env a)
| .list xs => .list (xs.map (evalAtom env))
| .dict xs => .dict (xs.map fun kv => (kv.1, evalAtom env kv.2))
| .tuple xs => .tuple (xs.map (evalAtom env))

/-- Evaluate the whole configuration file: every variable with the
value its assignment produces in the given environment. -/
def evalConf (env : BuildEnv) : List (String × TopValue) :=
confAssignments.map fun a => (a.1, evalExpr env a.2)

/-! Value-level definitions, one per assignment, source names kept. -/

def project : String := "libmyrtx"

def copyright : String := "2025, Mike Großmann"

def author : String := "libmyrtx Contributors"

def version : String := "0.1.0"

def release : String := "0.1.0"

def extensions : List String :=
[ "sphinx.ext.autodoc",
  "sphinx.ext.viewcode",
  "sphinx.ext.todo",
  "sphinx.ext.coverage",
  "sphinx.ext.mathjax",
  "sphinx.ext.ifconfig",
  "sphinx.ext.githubpages",
  "sphinx_rtd_theme",
  "breathe" ]

def templates_path : List String := ["_templates"]

def exclude_patterns : List String := []

def html_theme : String := "sphinx_rtd_theme"

/-- `html_theme_path = [sphinx_rtd_theme.get_html_theme_path()]`: the
single-element list holding the result of the theme path call in the
given environment. -/
def html_theme_path (env : BuildEnv) : List Value :=
[env.callResult "sphinx_rtd_theme.get_html_theme_path"]

def html_static_path : List String := ["_static"]

def html_logo : Option String := Option.none

def html_favicon : Option String := Option.none

def html_theme_options : List (String × Value) :=
[ ("logo_only", .bool false),
  ("display_version", .bool true),
  ("prev_next_buttons_location", .str "bottom"),
  ("style_external_links", .bool false),
  ("collapse_navigation", .bool false),
  ("sticky_navigation", .bool true),
  ("navigation_depth", .int 4),
  ("includehidden", .bool true),
  ("titles_only", .bool false) ]

def breathe_projects : List (String × String) :=
[("libmyrtx", "../doxygen_output/xml/")]

def breathe_default_project : String := "libmyrtx"

def breathe_default_members : String × String := ("members", "undoc-members")

/-- A theme option value is a boolean, an enumeration string or an
integer (and not the Python value None). -/
def isBoolEnumOrInt : Value → Bool
| .bool _ => true
| .str _ => true
| .int _ => true
| .none => false

/-- Whether a document is excluded by `exclude_patterns`, for any
pattern-matching semantics `matchFn` the consuming tool may use. -/
def excludedBy (matchFn : String → String → Bool) (doc : String) : Bool :=
exclude_patterns.any fun p => matchFn p doc

end Conf

namespace Conf

/-- C1: for every required metadata key among project, author, version
and release, the configuration assigns a non-empty string value. -/
theorem c1_required_metadata_nonempty :
project ≠ "" ∧ author ≠ "" ∧ version ≠ "" ∧ release ≠ "" := by
  refine ⟨?_, ?_, ?_, ?_⟩ <;> decide

/-- C2 counterexample: not every configuration value is produced by a
literal assignment with no function invocation — the assignment to
html_theme_path invokes the theme path function. -/
theorem c2_counterexample :
¬ (∀ a ∈ confAssignments, isLiteralExpr a.2 = true) := by
  intro h
  have hm : ("html_theme_path",
      Expr.list [Atom.call "sphinx_rtd_theme.get_html_theme_path"]) ∈
      confAssignments := by decide
  have := h _ hm
  simp [isLiteralExpr, isLiteralAtom] at this

/-- C2 amended: every configuration value except html_theme_path is
produced by a literal assignment with no function invocation, and the
html_theme_path assignment is a list display whose sole element is the
invocation of the theme package path function. -/
theorem c2_amended :
(∀ a ∈ confAssignments, a.1 ≠ "html_theme_path" → isLiteralExpr a.2 = true) ∧
confAssignments.lookup "html_theme_path" =
  some (Expr.list [Atom.call "sphinx_rtd_theme.get_html_theme_path"]) := by
  constructor
  · decide
  · rfl

/-- C2 amended witness: the amended statement applied at the concrete
assignment of project, a literal. -/
theorem c2_amended_witness :
isLiteralExpr (Expr.atom (Atom.str "libmyrtx")) = true :=
c2_amended.1 ("project", Expr.atom (Atom.str "libmyrtx")) (by decide) (by decide)

/-- C3: the theme option mapping has exactly the nine named options in
order, every value is a boolean, an enumeration string or an integer,
and the navigation depth is the integer 4. -/
theorem c3_theme_options_shape :
html_theme_options.map Prod.fst =
  [ "logo_only", "display_version", "prev_next_buttons_location",
    "style_external_links", "collapse_navigation", "sticky_navigation",
    "navigation_depth", "includehidden", "titles_only" ] ∧
html_theme_options.all (fun kv => isBoolEnumOrInt kv.2) = true ∧
html_theme_options.lookup "navigation_depth" = some (Value.int 4) := by
  refine ⟨?_, ?_, ?_⟩ <;> decide

/-- C4: the cross-reference configuration maps the single project
identifier libmyrtx to the XML output directory, the default project
selector is a key of that mapping, and the member-visibility flags are
the tuple of exactly the two flags for public and undocumented
members. -/
theorem c4_breathe_configuration :
breathe_projects.map Prod.fst = ["libmyrtx"] ∧
breathe_default_project ∈ breathe_projects.map Prod.fst ∧
breathe_projects.lookup breathe_default_project =
  some "../doxygen_output/xml/" ∧
breathe_default_members = ("members", "undoc-members") := by
  refine ⟨?_, ?_, ?_, ?_⟩ <;> decide

/-- C5: evaluating the configuration twice in the same environment
yields the same assignment list and the same value for every
configuration variable (two-run determinism of the artifact). -/
theorem c5_two_run_determinism (e₁ e₂ : BuildEnv) (h : e₁ = e₂) :
evalConf e₁ = evalConf e₂ ∧
(∀ k : String, (evalConf e₁).lookup k = (evalConf e₂).lookup k) := by
  subst h
  exact ⟨rfl, fun _ => rfl⟩

/-- A concrete build environment in which the theme path call returns a
fixed directory. -/
def sampleEnv : BuildEnv :=
⟨fun _ => Value.str "/opt/sphinx_rtd_theme"⟩

/-- C5 witness: two-run determinism applied at a concrete environment,
and the evaluated html_theme_path there. -/
theorem c5_two_run_determinism_witness :
evalConf sampleEnv = evalConf sampleEnv ∧
(evalConf sampleEnv).lookup "html_theme_path" =
  some (TopValue.list [Value.str "/opt/sphinx_rtd_theme"]) :=
⟨(c5_two_run_determinism sampleEnv sampleEnv rfl).1, by rfl⟩

/-- C8: the short version string equals the full release string and
both are 0.1.0, so the release carries no alpha, beta or rc suffix. -/
theorem c8_version_eq_release :
version = release ∧ release = "0.1.0" := by
  exact ⟨rfl, rfl⟩

/-- C9: the selected HTML theme identifier is itself a member of the
enabled extension list. -/
theorem c9_theme_is_extension :
html_theme ∈ extensions := by
  decide

/-- C10: the exclude pattern list is empty, so under any
pattern-matching semantics no document is excluded by this
configuration. -/
theorem c10_no_document_excluded :
exclude_patterns = ([] : List String) ∧
(∀ matchFn : String → String → Bool, ∀ doc : String,
  excludedBy matchFn doc = false) :=
⟨rfl, fun _ _ => rfl⟩

end Conf
